import Mathlib

/-!
Shallow embedding of the organisations/locations CRUD service
(`app/api/routes/organisations.py`) and proofs about its five request
handlers.  The relational store is modelled as a pair of row lists with
autoincrement counters; each handler is a function from a request and a
store to a result (possibly an HTTP error) together with the new store.
Coordinates are modelled as rationals: the source only stores and compares
them, never does arithmetic on them.
-/

namespace OrgService

/-- Modelled from the spec: the `Organisation` entity of `app.models`
(not under `src/`): a server-assigned unique identifier and a text name. -/
structure Organisation where
  id : Nat
  name : String
deriving DecidableEq, Repr

/-- Modelled from the spec: the `Location` entity of `app.models`
(not under `src/`): identifier, name, latitude, longitude and a foreign
reference to an organisation. -/
structure Location where
  id : Nat
  name : String
  latitude : ℚ
  longitude : ℚ
  organisation_id : Nat
deriving DecidableEq, Repr

/-- Modelled from the spec: the `CreateOrganisation` request body of
`app.models` (not under `src/`): just a name. -/
structure CreateOrganisation where
  name : String
deriving DecidableEq, Repr

/-- The `CreateLocation` request body, from the routes file itself. -/
structure CreateLocation where
  name : String
  latitude : ℚ
  longitude : ℚ
  organisation_id : Nat
deriving DecidableEq, Repr

/-- An `HTTPException` as raised by the handlers: status code and detail. -/
structure HTTPError where
  status_code : Nat
  detail : String
deriving DecidableEq, Repr

/-- The relational store: the two tables in insertion order, plus the
autoincrement counters the database uses to assign primary keys. -/
structure Store where
  organisations : List Organisation
  locations : List Location
  next_org_id : Nat
  next_loc_id : Nat
deriving DecidableEq, Repr

/-- The empty database. -/
def Store.empty : Store := ⟨[], [], 0, 0⟩

/-- `session.get(Organisation, oid)`: primary-key lookup. -/
def sessionGetOrganisation (s : Store) (oid : Nat) : Option Organisation :=
  s.organisations.find? (fun o => o.id == oid)

/-- `create_organisation`: build a row from the request name, persist it,
return the persisted representation with its assigned identifier. -/
def create_organisation (req : CreateOrganisation) (s : Store) :
    Organisation × Store :=
  let organisation : Organisation := { id := s.next_org_id, name := req.name }
  (organisation,
    { s with organisations := s.organisations ++ [organisation],
             next_org_id := s.next_org_id + 1 })

/-- `get_organisations`: `session.exec(select(Organisation)).all()`. -/
def get_organisations (s : Store) : List Organisation × Store :=
  (s.organisations, s)

/-- `get_organisation`: primary-key lookup, 404 when absent. -/
def get_organisation (organisation_id : Nat) (s : Store) :
    Except HTTPError Organisation × Store :=
  match sessionGetOrganisation s organisation_id with
  | none => (.error ⟨404, "Organisation not found"⟩, s)
  | some organisation => (.ok organisation, s)

/-- `create_location`: look up the referenced organisation, 404 when it is
absent, otherwise persist a new location row built from the request. -/
def create_location (req : CreateLocation) (s : Store) :
    Except HTTPError Location × Store :=
  match sessionGetOrganisation s req.organisation_id with
  | none => (.error ⟨404, "Organisation not found"⟩, s)
  | some _ =>
    let location : Location :=
      { id := s.next_loc_id, name := req.name, latitude := req.latitude,
        longitude := req.longitude, organisation_id := req.organisation_id }
    (.ok location,
      { s with locations := s.locations ++ [location],
               next_loc_id := s.next_loc_id + 1 })

/-- The `where` clauses of the location query: organisation match, plus the
four inclusive bounding-box comparisons when a box is supplied (a 4-tuple is
always truthy in Python, so only `None` skips the extra clauses). -/
def locationMatches (organisation_id : Nat)
    (bounding_box : Option (ℚ × ℚ × ℚ × ℚ)) (l : Location) : Bool :=
  l.organisation_id == organisation_id &&
    match bounding_box with
    | none => true
    | some (min_lat, min_lon, max_lat, max_lon) =>
        decide (l.latitude ≥ min_lat) && decide (l.latitude ≤ max_lat) &&
        decide (l.longitude ≥ min_lon) && decide (l.longitude ≤ max_lon)

/-- `get_organisation_locations`: select the matching rows, 404 when the
resulting list is empty, otherwise return it. -/
def get_organisation_locations (organisation_id : Nat)
    (bounding_box : Option (ℚ × ℚ × ℚ × ℚ)) (s : Store) :
    Except HTTPError (List Location) × Store :=
  let locations := s.locations.filter (locationMatches organisation_id bounding_box)
  if locations.isEmpty then
    (.error ⟨404,
      "No locations found for this organisation within the specified bounding box."⟩, s)
  else
    (.ok locations, s)

/-- Stores reachable from the empty database by the five handlers. -/
inductive Reachable : Store → Prop
  | empty : Reachable Store.empty
  | createOrg (req : CreateOrganisation) {s : Store} :
      Reachable s → Reachable (create_organisation req s).2
  | listOrgs {s : Store} : Reachable s → Reachable (get_organisations s).2
  | getOrg (oid : Nat) {s : Store} :
      Reachable s → Reachable (get_organisation oid s).2
  | createLoc (req : CreateLocation) {s : Store} :
      Reachable s → Reachable (create_location req s).2
  | listLocs (oid : Nat) (bb : Option (ℚ × ℚ × ℚ × ℚ)) {s : Store} :
      Reachable s → Reachable (get_organisation_locations oid bb s).2

/-- The three read-only handlers leave the store unchanged. -/
theorem get_organisations_store (s : Store) : (get_organisations s).2 = s := rfl

theorem get_organisation_store (oid : Nat) (s : Store) :
    (get_organisation oid s).2 = s := by
  unfold get_organisation
  cases sessionGetOrganisation s oid <;> rfl

theorem get_organisation_locations_store (oid : Nat)
    (bb : Option (ℚ × ℚ × ℚ × ℚ)) (s : Store) :
    (get_organisation_locations oid bb s).2 = s := by
  unfold get_organisation_locations
  by_cases h : (s.locations.filter (locationMatches oid bb)).isEmpty <;> simp [h]

/-- When the referenced organisation is absent, `create_location` is the
404 error and the untouched store. -/
theorem create_location_none (req : CreateLocation) (s : Store)
    (hf : sessionGetOrganisation s req.organisation_id = none) :
    create_location req s = (.error ⟨404, "Organisation not found"⟩, s) := by
  unfold create_location
  rw [hf]

/-- When the referenced organisation is present, `create_location` appends
exactly one location row built from the request. -/
theorem create_location_some (req : CreateLocation) (s : Store) (o : Organisation)
    (hf : sessionGetOrganisation s req.organisation_id = some o) :
    create_location req s =
      (.ok ⟨s.next_loc_id, req.name, req.latitude, req.longitude, req.organisation_id⟩,
       { s with
          locations := s.locations ++
            [⟨s.next_loc_id, req.name, req.latitude, req.longitude, req.organisation_id⟩],
          next_loc_id := s.next_loc_id + 1 }) := by
  unfold create_location
  rw [hf]

/-- A store holding one organisation "Acme" with identifier 1, used to
instantiate the theorems below at concrete inputs. -/
def acmeStore : Store := ⟨[⟨1, "Acme"⟩], [], 2, 0⟩

/-- C1: if no organisation row has the requested `organisation_id`,
`create_location` fails with a 404 not-found error and the store is
unchanged (no location row is persisted). -/
theorem create_location_404_when_org_missing (req : CreateLocation) (s : Store)
    (h : ∀ o ∈ s.organisations, o.id ≠ req.organisation_id) :
    create_location req s = (.error ⟨404, "Organisation not found"⟩, s) := by
  apply create_location_none
  exact List.find?_eq_none.mpr (fun o ho => by simpa using h o ho)

/-- Witness for C1 at the empty store. -/
theorem create_location_404_when_org_missing_witness :
    create_location ⟨"HQ", 51.5, -0.1, 7⟩ Store.empty =
      (.error ⟨404, "Organisation not found"⟩, Store.empty) :=
  create_location_404_when_org_missing ⟨"HQ", 51.5, -0.1, 7⟩ Store.empty (by decide)

/-- C5: `get_organisation` returns the organisation row whose identifier
matches when one exists, fails with a 404 error carrying an explanatory
message when no row matches, and modifies nothing in either case. -/
theorem get_organisation_spec (oid : Nat) (s : Store) :
    (get_organisation oid s).2 = s ∧
    (∀ o, (get_organisation oid s).1 = .ok o → o ∈ s.organisations ∧ o.id = oid) ∧
    ((∀ o ∈ s.organisations, o.id ≠ oid) →
      (get_organisation oid s).1 = .error ⟨404, "Organisation not found"⟩) ∧
    ((∃ o ∈ s.organisations, o.id = oid) →
      ∃ o, (get_organisation oid s).1 = .ok o ∧ o ∈ s.organisations ∧ o.id = oid) := by
  refine ⟨get_organisation_store oid s, ?_, ?_, ?_⟩
  · intro o hok
    cases hf : sessionGetOrganisation s oid with
    | none => simp [get_organisation, hf] at hok
    | some o2 =>
      simp [get_organisation, hf] at hok
      subst hok
      exact ⟨List.mem_of_find?_eq_some hf, by simpa using List.find?_some hf⟩
  · intro h
    have hf : sessionGetOrganisation s oid = none :=
      List.find?_eq_none.mpr (fun o ho => by simpa using h o ho)
    simp [get_organisation, hf]
  · rintro ⟨o, ho, hid⟩
    have hsome : (sessionGetOrganisation s oid).isSome :=
      List.find?_isSome.mpr ⟨o, ho, by simpa using hid⟩
    cases hf : sessionGetOrganisation s oid with
    | none => rw [hf] at hsome; simp at hsome
    | some o2 =>
      exact ⟨o2, by simp [get_organisation, hf],
        List.mem_of_find?_eq_some hf, by simpa using List.find?_some hf⟩

/-- Witness for C5: looking up identifier 1 in the Acme store succeeds. -/
theorem get_organisation_spec_witness :
    ∃ o, (get_organisation 1 acmeStore).1 = .ok o ∧
      o ∈ acmeStore.organisations ∧ o.id = 1 :=
  (get_organisation_spec 1 acmeStore).2.2.2 (by decide)

/-- C6: `create_organisation` always succeeds, appends exactly one new
organisation row carrying the requested name and the server-assigned
identifier, and a subsequent `get_organisation` with that identifier
returns the same organisation.  The hypothesis is the database invariant
that existing primary keys are below the autoincrement counter. -/
theorem create_organisation_spec (req : CreateOrganisation) (s : Store)
    (h : ∀ o ∈ s.organisations, o.id < s.next_org_id) :
    (create_organisation req s).1.name = req.name ∧
    (create_organisation req s).1.id = s.next_org_id ∧
    (create_organisation req s).2.organisations =
      s.organisations ++ [(create_organisation req s).1] ∧
    (create_organisation req s).2.locations = s.locations ∧
    (get_organisation (create_organisation req s).1.id
        (create_organisation req s).2).1 = .ok (create_organisation req s).1 := by
  refine ⟨rfl, rfl, rfl, rfl, ?_⟩
  have hnone : s.organisations.find?
      (fun o => o.id == s.next_org_id) = none :=
    List.find?_eq_none.mpr (fun o ho => by
      simpa using Nat.ne_of_lt (h o ho))
  have hfind : sessionGetOrganisation (create_organisation req s).2
      (create_organisation req s).1.id =
        some (create_organisation req s).1 := by
    show ((s.organisations ++ [(create_organisation req s).1]).find?
        (fun o => o.id == s.next_org_id)) = _
    rw [List.find?_append, hnone]
    simp [create_organisation]
  simp [get_organisation, hfind]

/-- Witness for C6 at the Acme store. -/
theorem create_organisation_spec_witness :
    (get_organisation (create_organisation ⟨"Beta"⟩ acmeStore).1.id
        (create_organisation ⟨"Beta"⟩ acmeStore).2).1 =
      .ok (create_organisation ⟨"Beta"⟩ acmeStore).1 :=
  (create_organisation_spec ⟨"Beta"⟩ acmeStore (by decide)).2.2.2.2

/-- C7: `get_organisations` returns every organisation row in storage
order and leaves the store unchanged; on an empty table the result is the
empty list rather than an error. -/
theorem get_organisations_returns_all (s : Store) :
    get_organisations s = (s.organisations, s) ∧
    (s.organisations = [] → (get_organisations s).1 = []) :=
  ⟨rfl, fun h => h⟩

/-- Witness for C7 at the empty store. -/
theorem get_organisations_returns_all_witness :
    get_organisations Store.empty = (Store.empty.organisations, Store.empty) ∧
    (get_organisations Store.empty).1 = [] :=
  ⟨(get_organisations_returns_all Store.empty).1,
   (get_organisations_returns_all Store.empty).2 rfl⟩

/-- C8: the two read operations modify nothing, so running either twice
with no intervening write yields identical results. -/
theorem reads_idempotent (s : Store) (oid : Nat) :
    get_organisations ((get_organisations s).2) = get_organisations s ∧
    get_organisation oid ((get_organisation oid s).2) = get_organisation oid s ∧
    (get_organisations s).2 = s ∧ (get_organisation oid s).2 = s := by
  rw [get_organisations_store s, get_organisation_store oid s]
  exact ⟨rfl, rfl, rfl, rfl⟩

/-- The boolean bounding-box predicate agrees with the propositional
description used by the specification. -/
theorem locationMatches_some_eq (oid : Nat) (a b c d : ℚ) (l : Location) :
    locationMatches oid (some (a, b, c, d)) l =
      decide (l.organisation_id = oid ∧ a ≤ l.latitude ∧ l.latitude ≤ c ∧
              b ≤ l.longitude ∧ l.longitude ≤ d) := by
  apply Bool.eq_iff_iff.mpr
  simp [locationMatches, ge_iff_le, and_assoc]

/-- Without a bounding box the predicate is just the organisation match. -/
theorem locationMatches_none_eq (oid : Nat) (l : Location) :
    locationMatches oid none l = decide (l.organisation_id = oid) := by
  apply Bool.eq_iff_iff.mpr
  simp [locationMatches]

/-- A store holding organisation "Acme" (id 1) and its location "HQ". -/
def hqStore : Store := ⟨[⟨1, "Acme"⟩], [⟨1, "HQ", 51.5, -0.1, 1⟩], 2, 2⟩

/-- C2: whenever `get_organisation_locations` returns a list, that list is
exactly the location rows matching the organisation identifier and, when a
bounding box is supplied, lying inside it (both intervals inclusive). -/
theorem get_organisation_locations_exact (oid : Nat) (s : Store) :
    (∀ (a b c d : ℚ) (locs : List Location),
        (get_organisation_locations oid (some (a, b, c, d)) s).1 = .ok locs →
        locs = s.locations.filter (fun l =>
          decide (l.organisation_id = oid ∧ a ≤ l.latitude ∧ l.latitude ≤ c ∧
                  b ≤ l.longitude ∧ l.longitude ≤ d))) ∧
    (∀ locs : List Location,
        (get_organisation_locations oid none s).1 = .ok locs →
        locs = s.locations.filter (fun l => decide (l.organisation_id = oid))) := by
  constructor
  · intro a b c d locs hok
    by_cases h : (s.locations.filter (locationMatches oid (some (a, b, c, d)))).isEmpty
    · simp [get_organisation_locations, h] at hok
    · simp [get_organisation_locations, h] at hok
      rw [← hok]
      exact List.filter_congr (fun l _ => locationMatches_some_eq oid a b c d l)
  · intro locs hok
    by_cases h : (s.locations.filter (locationMatches oid none)).isEmpty
    · simp [get_organisation_locations, h] at hok
    · simp [get_organisation_locations, h] at hok
      rw [← hok]
      exact List.filter_congr (fun l _ => locationMatches_none_eq oid l)

/-- Witness for C2: a box around London keeps exactly the HQ row. -/
theorem get_organisation_locations_exact_witness :
    [(⟨1, "HQ", 51.5, -0.1, 1⟩ : Location)] = hqStore.locations.filter (fun l =>
      decide (l.organisation_id = 1 ∧ (51 : ℚ) ≤ l.latitude ∧ l.latitude ≤ 52 ∧
              (-1 : ℚ) ≤ l.longitude ∧ l.longitude ≤ 0)) :=
  (get_organisation_locations_exact 1 hqStore).1 51 (-1) 52 0
    [⟨1, "HQ", 51.5, -0.1, 1⟩] (by
      have h : hqStore.locations.filter (locationMatches 1 (some (51, -1, 52, 0))) =
          [(⟨1, "HQ", 51.5, -0.1, 1⟩ : Location)] := by
        simp [hqStore, locationMatches]
        norm_num
      simp [get_organisation_locations, h])

/-- C3: `get_organisation_locations` raises a 404 error exactly when the
filtered result list is empty, and the outcome never depends on the
organisations table: absent organisation and present-but-locationless
organisation are not distinguished. -/
theorem get_organisation_locations_404_iff (oid : Nat)
    (bb : Option (ℚ × ℚ × ℚ × ℚ)) (s : Store) :
    ((∃ e : HTTPError, (get_organisation_locations oid bb s).1 = .error e ∧
        e.status_code = 404) ↔
      s.locations.filter (locationMatches oid bb) = []) ∧
    (∀ orgs2 : List Organisation,
      (get_organisation_locations oid bb { s with organisations := orgs2 }).1 =
        (get_organisation_locations oid bb s).1) := by
  by_cases h : (s.locations.filter (locationMatches oid bb)).isEmpty
  · refine ⟨⟨fun _ => List.isEmpty_iff.mp h, fun _ => ?_⟩, fun orgs2 => ?_⟩
    · exact ⟨⟨404,
        "No locations found for this organisation within the specified bounding box."⟩,
        by simp [get_organisation_locations, h], rfl⟩
    · simp [get_organisation_locations, h]
  · refine ⟨⟨?_, fun hnil => absurd (List.isEmpty_iff.mpr hnil) h⟩, fun orgs2 => ?_⟩
    · rintro ⟨e, he, _⟩
      simp [get_organisation_locations, h] at he
    · simp [get_organisation_locations, h]

/-- Witness for C3: the Acme store has an organisation but no locations,
and listing its locations is a 404 error. -/
theorem get_organisation_locations_404_iff_witness :
    ∃ e : HTTPError, (get_organisation_locations 1 none acmeStore).1 = .error e ∧
      e.status_code = 404 :=
  (get_organisation_locations_404_iff 1 none acmeStore).1.mpr rfl

/-- C4: creating a location for an existing organisation that previously
had none, then listing that organisation's locations without a bounding
box, returns exactly the location just created. -/
theorem create_then_list_roundtrip (req : CreateLocation) (s : Store)
    (horg : ∃ o ∈ s.organisations, o.id = req.organisation_id)
    (hnoloc : ∀ l ∈ s.locations, l.organisation_id ≠ req.organisation_id) :
    ∃ loc s2, create_location req s = (.ok loc, s2) ∧
      loc.name = req.name ∧ loc.latitude = req.latitude ∧
      loc.longitude = req.longitude ∧ loc.organisation_id = req.organisation_id ∧
      (get_organisation_locations req.organisation_id none s2).1 = .ok [loc] := by
  obtain ⟨o, ho, hid⟩ := horg
  have hsome : (sessionGetOrganisation s req.organisation_id).isSome :=
    List.find?_isSome.mpr ⟨o, ho, by simpa using hid⟩
  cases hf : sessionGetOrganisation s req.organisation_id with
  | none => rw [hf] at hsome; simp at hsome
  | some o2 =>
    refine ⟨_, _, create_location_some req s o2 hf, rfl, rfl, rfl, rfl, ?_⟩
    have hfil : s.locations.filter (locationMatches req.organisation_id none) = [] :=
      List.filter_eq_nil_iff.mpr (fun l hl => by
        simpa [locationMatches] using hnoloc l hl)
    simp [get_organisation_locations, List.filter_append, hfil, locationMatches]

/-- Witness for C4: creating HQ for Acme then listing returns just HQ. -/
theorem create_then_list_roundtrip_witness :
    ∃ loc s2, create_location ⟨"HQ", 51.5, -0.1, 1⟩ acmeStore = (.ok loc, s2) ∧
      loc.name = "HQ" ∧ loc.latitude = 51.5 ∧ loc.longitude = -0.1 ∧
      loc.organisation_id = 1 ∧
      (get_organisation_locations 1 none s2).1 = .ok [loc] :=
  create_then_list_roundtrip ⟨"HQ", 51.5, -0.1, 1⟩ acmeStore
    ⟨⟨1, "Acme"⟩, by decide, rfl⟩ (by intro l hl; simp [acmeStore] at hl)

/-- C9: when the referenced organisation exists, `create_location`
succeeds and persists the exact requested coordinates; no latitude or
longitude range check is applied. -/
theorem create_location_no_bounds_check (req : CreateLocation) (s : Store)
    (horg : ∃ o ∈ s.organisations, o.id = req.organisation_id) :
    ∃ loc, (create_location req s).1 = .ok loc ∧
      (create_location req s).2.locations = s.locations ++ [loc] ∧
      loc.name = req.name ∧ loc.latitude = req.latitude ∧
      loc.longitude = req.longitude ∧ loc.organisation_id = req.organisation_id := by
  obtain ⟨o, ho, hid⟩ := horg
  have hsome : (sessionGetOrganisation s req.organisation_id).isSome :=
    List.find?_isSome.mpr ⟨o, ho, by simpa using hid⟩
  cases hf : sessionGetOrganisation s req.organisation_id with
  | none => rw [hf] at hsome; simp at hsome
  | some o2 =>
    exact ⟨_, by rw [create_location_some req s o2 hf],
      by rw [create_location_some req s o2 hf], rfl, rfl, rfl, rfl⟩

/-- Witness for C9: latitude 200 and longitude -300 are far outside the
valid geographic ranges, yet the location is persisted verbatim. -/
theorem create_location_no_bounds_check_witness :
    ∃ loc, (create_location ⟨"Nowhere", 200, -300, 1⟩ acmeStore).1 = .ok loc ∧
      (create_location ⟨"Nowhere", 200, -300, 1⟩ acmeStore).2.locations =
        acmeStore.locations ++ [loc] ∧
      loc.name = "Nowhere" ∧ loc.latitude = 200 ∧ loc.longitude = -300 ∧
      loc.organisation_id = 1 :=
  create_location_no_bounds_check ⟨"Nowhere", 200, -300, 1⟩ acmeStore
    ⟨⟨1, "Acme"⟩, by decide, rfl⟩

/-- C10: in every store reachable from the empty database through the five
handlers, every location row's `organisation_id` is the identifier of some
persisted organisation row. -/
theorem reachable_referential_integrity {s : Store} (h : Reachable s) :
    ∀ l ∈ s.locations, ∃ o ∈ s.organisations, o.id = l.organisation_id := by
  induction h with
  | empty => intro l hl; simp [Store.empty] at hl
  | createOrg req hr ih =>
    intro l hl
    obtain ⟨o, ho, hid⟩ := ih l hl
    exact ⟨o, List.mem_append_left _ ho, hid⟩
  | listOrgs hr ih => exact ih
  | getOrg oid hr ih =>
    rw [get_organisation_store]
    exact ih
  | createLoc req hr ih =>
    rename_i s0
    cases hf : sessionGetOrganisation s0 req.organisation_id with
    | none =>
      rw [create_location_none req s0 hf]
      exact ih
    | some o =>
      rw [create_location_some req s0 o hf]
      intro l hl
      rcases List.mem_append.mp hl with hl2 | hl2
      · obtain ⟨o2, ho2, hid2⟩ := ih l hl2
        exact ⟨o2, ho2, hid2⟩
      · rw [List.mem_singleton.mp hl2]
        refine ⟨o, List.mem_of_find?_eq_some hf, ?_⟩
        simpa using List.find?_some hf
  | listLocs oid bb hr ih =>
    rw [get_organisation_locations_store]
    exact ih

/-- Every reachable store satisfies the autoincrement invariant: existing
primary keys lie strictly below the counters.  This is the database fact
assumed as a hypothesis by `create_organisation_spec`. -/
theorem reachable_autoincrement {s : Store} (h : Reachable s) :
    (∀ o ∈ s.organisations, o.id < s.next_org_id) ∧
    (∀ l ∈ s.locations, l.id < s.next_loc_id) := by
  induction h with
  | empty =>
    constructor
    · intro o ho; simp [Store.empty] at ho
    · intro l hl; simp [Store.empty] at hl
  | createOrg req hr ih =>
    constructor
    · intro o ho
      rcases List.mem_append.mp ho with ho2 | ho2
      · exact Nat.lt_succ_of_lt (ih.1 o ho2)
      · rw [List.mem_singleton.mp ho2]
        exact Nat.lt_succ_self _
    · exact ih.2
  | listOrgs hr ih => exact ih
  | getOrg oid hr ih =>
    rw [get_organisation_store]
    exact ih
  | createLoc req hr ih =>
    rename_i s0
    cases hf : sessionGetOrganisation s0 req.organisation_id with
    | none =>
      rw [create_location_none req s0 hf]
      exact ih
    | some o =>
      rw [create_location_some req s0 o hf]
      constructor
      · exact ih.1
      · intro l hl
        rcases List.mem_append.mp hl with hl2 | hl2
        · exact Nat.lt_succ_of_lt (ih.2 l hl2)
        · rw [List.mem_singleton.mp hl2]
          exact Nat.lt_succ_self _
  | listLocs oid bb hr ih =>
    rw [get_organisation_locations_store]
    exact ih

/-- Counterexample to C2 as universally stated: when no row matches (here
the empty store), `get_organisation_locations` does not return the
(empty) filtered list — it raises a 404 error instead. -/
theorem get_organisation_locations_exact_counterexample :
    (get_organisation_locations 1 (some (0, 0, 1, 1)) Store.empty).1 ≠
      .ok (Store.empty.locations.filter (fun l =>
        decide (l.organisation_id = 1 ∧ (0 : ℚ) ≤ l.latitude ∧ l.latitude ≤ 1 ∧
                (0 : ℚ) ≤ l.longitude ∧ l.longitude ≤ 1))) := by
  simp [get_organisation_locations, Store.empty]

/-- Witness for C10: after creating "Acme" and then its location "HQ"
starting from the empty store, the location's organisation reference (0)
is the identifier of a persisted organisation. -/
theorem reachable_referential_integrity_witness :
    ∃ o ∈ ((create_location ⟨"HQ", 51.5, -0.1, 0⟩
        (create_organisation ⟨"Acme"⟩ Store.empty).2).2).organisations,
      o.id = (0 : Nat) :=
  reachable_referential_integrity
    (Reachable.createLoc ⟨"HQ", 51.5, -0.1, 0⟩
      (Reachable.createOrg ⟨"Acme"⟩ Reachable.empty))
    ⟨0, "HQ", 51.5, -0.1, 0⟩
    (by simp [create_location, create_organisation, Store.empty, sessionGetOrganisation])

end OrgService
